import Mathlib

/-!
Shallow embedding of `src/src/lib.rs` (Rust bindings for the HACL* crypto
library).  The five public wrapper functions are modelled as Lean functions.
The external C primitives (`Chacha20Poly1305_aead_encrypt`,
`Chacha20Poly1305_aead_decrypt`, `Curve25519_crypto_scalarmult`,
`Ed25519_sign`, `SHA2_512_hash`) are not part of this repository; they are
modelled as abstract engine functions passed as parameters.  Each wrapper
returns, besides the Rust return value, the new contents of every
caller-owned output buffer and the list of engine calls it performed, so
that "the engine is never invoked" and "the output buffer is unmodified"
are expressible.  Byte buffers are `List Nat`; a Rust `as u32` cast is
`% U32_MOD`.  A null pointer for the optional AAD argument is `none`,
a valid pointer is `some aad`.
-/

def MAC_LEN : Nat := 16
def NONCE_LEN : Nat := 12
def KEY_LEN : Nat := 32
def SIGN_LEN : Nat := 64
def HASH_LEN : Nat := 64

/-- `2^32`: a Rust `usize as u32` cast reduces the value modulo this. -/
def U32_MOD : Nat := 2 ^ 32

/-- The arguments the wrapper passes to the external
`Chacha20Poly1305_aead_encrypt` C function (output pointers omitted):
plaintext buffer, `mlen : u32`, AAD pointer (`none` = null), `aadlen : u32`,
key and nonce buffers. -/
structure EncCall where
  m : List Nat
  mlen : Nat
  aad : Option (List Nat)
  aadlen : Nat
  key : List Nat
  nonce : List Nat
deriving DecidableEq, Repr

/-- The arguments the wrapper passes to the external
`Chacha20Poly1305_aead_decrypt` C function (output pointer omitted):
ciphertext buffer, `mlen : u32`, mac buffer, AAD pointer (`none` = null),
`aadlen : u32`, key and nonce buffers. -/
structure DecCall where
  c : List Nat
  mlen : Nat
  mac : List Nat
  aad : Option (List Nat)
  aadlen : Nat
  key : List Nat
  nonce : List Nat
deriving DecidableEq, Repr

/-- The arguments the wrapper passes to the external
`Curve25519_crypto_scalarmult` C function (output pointer omitted). -/
structure SmCall where
  secret : List Nat
  basepoint : List Nat
deriving DecidableEq, Repr

/-- The arguments the wrapper passes to the external `Ed25519_sign`
C function (output pointer omitted). -/
structure SignCall where
  secret : List Nat
  msg : List Nat
  len : Nat
deriving DecidableEq, Repr

/-- The arguments the wrapper passes to the external `SHA2_512_hash`
C function (output pointer omitted). -/
structure HashCall where
  input : List Nat
  input_len : Nat
deriving DecidableEq, Repr

/-- Abstract model of the external `Chacha20Poly1305_aead_encrypt`:
returns the bytes it writes into the ciphertext buffer, the bytes it
writes into the mac buffer, and the `u32` status code. -/
def EncEngine : Type := EncCall → List Nat × List Nat × Nat

/-- Abstract model of the external `Chacha20Poly1305_aead_decrypt`:
returns the bytes it writes into the message buffer and the `u32`
status code. -/
def DecEngine : Type := DecCall → List Nat × Nat

/-- Abstract model of the external `Curve25519_crypto_scalarmult`:
returns the bytes it writes into the public-key buffer. -/
def SmEngine : Type := SmCall → List Nat

/-- Abstract model of the external `Ed25519_sign`: returns the bytes it
writes into the signature buffer. -/
def SignEngine : Type := SignCall → List Nat

/-- Abstract model of the external `SHA2_512_hash`: returns the bytes it
writes into the hash buffer. -/
def HashEngine : Type := HashCall → List Nat

/-- Result of `chacha20poly1305_aead_encrypt`: the Rust return value, the
final contents of the caller-owned `ciphertext` and `mac` buffers, and the
engine calls performed. -/
structure EncResult where
  ret : Except String Bool
  ciphertext : List Nat
  mac : List Nat
  calls : List EncCall

/-- Result of `chacha20poly1305_aead_decrypt`. -/
structure DecResult where
  ret : Except String Bool
  message : List Nat
  calls : List DecCall

/-- Result of `curve25519_crypto_scalarmult`. -/
structure SmResult where
  ret : Except String Unit
  public_key : List Nat
  calls : List SmCall

/-- Result of `ed25519_sign`. -/
structure SignResult where
  ret : Except String Unit
  signature : List Nat
  calls : List SignCall

/-- Result of `sha2_512_hash`. -/
structure HashResult where
  ret : Except String Unit
  hash : List Nat
  calls : List HashCall

/-- Embedding of `sha2_512_hash` from `src/src/lib.rs` (lines 67-83). -/
def sha2_512_hash (eng : HashEngine) (hash input : List Nat) : HashResult :=
  if hash.length ≠ HASH_LEN then
    ⟨Except.error "Hash length error", hash, []⟩
  else if input = [] then
    ⟨Except.error "Can\x27t use an empty input message", hash, []⟩
  else
    let input_len := input.length % U32_MOD
    let call : HashCall := ⟨input, input_len⟩
    ⟨Except.ok (), eng call, [call]⟩

/-- Embedding of `ed25519_sign` from `src/src/lib.rs` (lines 91-114).
The error string for a wrong-length secret key is the one the source
returns, verbatim. -/
def ed25519_sign (eng : SignEngine) (signature secret_key message : List Nat) :
    SignResult :=
  if secret_key.length ≠ KEY_LEN then
    ⟨Except.error "Public key length error", signature, []⟩
  else if signature.length ≠ SIGN_LEN then
    ⟨Except.error "Signature length error", signature, []⟩
  else if message = [] then
    ⟨Except.error "Can\x27t use an empty message", signature, []⟩
  else
    let mlen := message.length % U32_MOD
    let call : SignCall := ⟨secret_key, message, mlen⟩
    ⟨Except.ok (), eng call, [call]⟩

/-- Embedding of `curve25519_crypto_scalarmult` from `src/src/lib.rs`
(lines 121-142). -/
def curve25519_crypto_scalarmult (eng : SmEngine)
    (public_key secret_key basepoint : List Nat) : SmResult :=
  if public_key.length ≠ KEY_LEN then
    ⟨Except.error "Public key length error", public_key, []⟩
  else if secret_key.length ≠ KEY_LEN then
    ⟨Except.error "Secret key length error", public_key, []⟩
  else if basepoint.length ≠ KEY_LEN then
    ⟨Except.error "Basepoint length error", public_key, []⟩
  else
    let call : SmCall := ⟨secret_key, basepoint⟩
    ⟨Except.ok (), eng call, [call]⟩

/-- Embedding of `chacha20poly1305_aead_decrypt` from `src/src/lib.rs`
(lines 152-204). -/
def chacha20poly1305_aead_decrypt (eng : DecEngine)
    (message mac ciphertext aad key nonce : List Nat) : DecResult :=
  if mac.length ≠ MAC_LEN then
    ⟨Except.error "Mac length error", message, []⟩
  else if key.length ≠ KEY_LEN then
    ⟨Except.error "Key length error", message, []⟩
  else if nonce.length ≠ NONCE_LEN then
    ⟨Except.error "Nonce length error", message, []⟩
  else if message = [] then
    ⟨Except.error "Can\x27t use an empty message", message, []⟩
  else if ciphertext.length ≠ message.length then
    ⟨Except.error "Message and ciphertext have different lengths", message, []⟩
  else
    let mlen := message.length % U32_MOD
    let aadlen := aad.length % U32_MOD
    let aadptr : Option (List Nat) := if aad = [] then none else some aad
    let call : DecCall := ⟨ciphertext, mlen, mac, aadptr, aadlen, key, nonce⟩
    let out := eng call
    ⟨if out.2 = 0 then Except.ok true else Except.ok false, out.1, [call]⟩

/-- Embedding of `chacha20poly1305_aead_encrypt` from `src/src/lib.rs`
(lines 214-266). -/
def chacha20poly1305_aead_encrypt (eng : EncEngine)
    (ciphertext mac message aad key nonce : List Nat) : EncResult :=
  if mac.length ≠ MAC_LEN then
    ⟨Except.error "Mac length error", ciphertext, mac, []⟩
  else if key.length ≠ KEY_LEN then
    ⟨Except.error "Key length error", ciphertext, mac, []⟩
  else if nonce.length ≠ NONCE_LEN then
    ⟨Except.error "Nonce length error", ciphertext, mac, []⟩
  else if message = [] then
    ⟨Except.error "Can\x27t use an empty message", ciphertext, mac, []⟩
  else if ciphertext.length ≠ message.length then
    ⟨Except.error "Message and ciphertext have different lengths",
      ciphertext, mac, []⟩
  else
    let mlen := message.length % U32_MOD
    let aadlen := aad.length % U32_MOD
    let aadptr : Option (List Nat) := if aad = [] then none else some aad
    let call : EncCall := ⟨message, mlen, aadptr, aadlen, key, nonce⟩
    let out := eng call
    ⟨if out.2.2 = 0 then Except.ok true else Except.ok false,
      out.1, out.2.1, [call]⟩

/-- The validation preconditions of `chacha20poly1305_aead_encrypt`
(exactly the checks the source performs). -/
def encrypt_ok (ciphertext mac message : List Nat) (key nonce : List Nat) :
    Prop :=
  mac.length = MAC_LEN ∧ key.length = KEY_LEN ∧ nonce.length = NONCE_LEN ∧
    message ≠ [] ∧ ciphertext.length = message.length

/-- The validation preconditions of `chacha20poly1305_aead_decrypt`. -/
def decrypt_ok (message mac ciphertext : List Nat) (key nonce : List Nat) :
    Prop :=
  mac.length = MAC_LEN ∧ key.length = KEY_LEN ∧ nonce.length = NONCE_LEN ∧
    message ≠ [] ∧ ciphertext.length = message.length

/-- The validation preconditions of `curve25519_crypto_scalarmult`. -/
def scalarmult_ok (public_key secret_key basepoint : List Nat) : Prop :=
  public_key.length = KEY_LEN ∧ secret_key.length = KEY_LEN ∧
    basepoint.length = KEY_LEN

/-- The validation preconditions of `ed25519_sign`. -/
def sign_ok (signature secret_key message : List Nat) : Prop :=
  secret_key.length = KEY_LEN ∧ signature.length = SIGN_LEN ∧ message ≠ []

/-- The validation preconditions of `sha2_512_hash`. -/
def hash_ok (hash input : List Nat) : Prop :=
  hash.length = HASH_LEN ∧ input ≠ []

instance (c m msg k n : List Nat) : Decidable (encrypt_ok c m msg k n) := by
  unfold encrypt_ok; infer_instance

instance (msg m c k n : List Nat) : Decidable (decrypt_ok msg m c k n) := by
  unfold decrypt_ok; infer_instance

instance (p s b : List Nat) : Decidable (scalarmult_ok p s b) := by
  unfold scalarmult_ok; infer_instance

instance (s sk m : List Nat) : Decidable (sign_ok s sk m) := by
  unfold sign_ok; infer_instance

instance (h i : List Nat) : Decidable (hash_ok h i) := by
  unfold hash_ok; infer_instance

/-- The secret key `q_ae` of party A from `tests::test_gec`. -/
def q_ae : List Nat :=
  [0x98, 0x99, 0x22, 0xFA, 0x6E, 0x87, 0x2B, 0xC1, 0x45, 0x84, 0x80, 0xAA,
   0xF8, 0x65, 0xA5, 0xBA, 0xB8, 0x61, 0x85, 0x77, 0xC2, 0xEC, 0x37, 0xF9,
   0xAF, 0xB3, 0xAE, 0x47, 0x83, 0x2C, 0xA4, 0x44]

/-- The public key `p_ae` of party A from `tests::test_gec`. -/
def p_ae : List Nat :=
  [0x98, 0x99, 0x22, 0xFA, 0x6E, 0x87, 0x2B, 0xC1, 0x45, 0x84, 0x80, 0xAA,
   0xF8, 0x65, 0xA5, 0xBA, 0xB8, 0x61, 0x85, 0x77, 0xC2, 0xEC, 0x37, 0xF9,
   0xAF, 0xB3, 0xAE, 0x47, 0x83, 0x2C, 0xA4, 0x44]

/-- The secret key `q_be` of party B from `tests::test_gec`. -/
def q_be : List Nat :=
  [0xE4, 0xD5, 0x17, 0x13, 0xEB, 0xF8, 0x82, 0xCC, 0x7A, 0x90, 0x29, 0x14,
   0x59, 0xCC, 0x84, 0x7E, 0xA2, 0xD3, 0xE9, 0x5E, 0x9E, 0x4, 0x26, 0x90,
   0x83, 0x44, 0xE9, 0x5B, 0xA, 0xB7, 0x14, 0x42]

/-- The public key `p_be` of party B from `tests::test_gec`. -/
def p_be : List Nat :=
  [0x13, 0x4B, 0x63, 0x9E, 0x68, 0x0, 0x9C, 0x72, 0x8D, 0xB3, 0x64, 0xA0,
   0xCD, 0xA3, 0xF3, 0x2F, 0xB5, 0x4D, 0x23, 0x8, 0x7F, 0x33, 0x2C, 0x79,
   0x9F, 0xCD, 0x5F, 0x7D, 0x49, 0xA8, 0x25, 0xB5]

/-- Result of the `tests::test_gec` key-exchange workflow: the shared
secret buffer `z`, the three derived 64-byte blocks, the signature, and
the engine calls each step performed. -/
structure GecResult where
  z : List Nat
  ka_sa : List Nat
  kb_sb : List Nat
  kc_sc : List Nat
  sig : List Nat
  smCalls : List SmCall
  hashCalls : List HashCall
  signCalls : List SignCall

/-- Embedding of the `tests::test_gec` key-exchange workflow from
`src/src/lib.rs` (lines 370-442).  Step 3 computes the shared secret by
calling `curve25519_crypto_scalarmult(z, q_be, p_be)` exactly as the
source does.  Steps 4 derive the three blocks by hashing `z ++ [tag]`
for tags 0, 1, 2; step 5 signs `p_be ++ p_ae` with `q_be`. -/
def test_gec (sm : SmEngine) (hE : HashEngine) (sg : SignEngine) : GecResult :=
  let r1 := curve25519_crypto_scalarmult sm (List.replicate 32 0) q_be p_be
  let z := r1.public_key
  let r2 := sha2_512_hash hE (List.replicate 64 0) (z ++ [0])
  let r3 := sha2_512_hash hE (List.replicate 64 0) (z ++ [1])
  let r4 := sha2_512_hash hE (List.replicate 64 0) (z ++ [2])
  let r5 := ed25519_sign sg (List.replicate 64 0) q_be (p_be ++ p_ae)
  ⟨z, r2.hash, r3.hash, r4.hash, r5.signature,
   r1.calls, r2.calls ++ r3.calls ++ r4.calls, r5.calls⟩

/-- A trivial concrete AEAD encryption engine (ciphertext = plaintext,
mac = 16 zero bytes, status 0), used to instantiate theorems that are
parametric in the engine. -/
def encEngine0 : EncEngine := fun ec => (ec.m, List.replicate 16 0, 0)

/-- A trivial concrete AEAD decryption engine matching `encEngine0`. -/
def decEngine0 : DecEngine := fun dc => (dc.c, 0)

/-- A trivial concrete scalar-multiplication engine. -/
def smEngine0 : SmEngine := fun _ => List.replicate 32 1

/-- A trivial concrete signing engine. -/
def signEngine0 : SignEngine := fun _ => List.replicate 64 3

/-- A trivial concrete hashing engine. -/
def hashEngine0 : HashEngine := fun _ => List.replicate 64 2

/-- The `EncCall` a validated `chacha20poly1305_aead_encrypt` builds:
`mlen` and `aadlen` are the `as u32` casts of the true lengths, and the
AAD pointer is null exactly when the AAD slice is empty. -/
def encCallOf (message aad key nonce : List Nat) : EncCall :=
  ⟨message, message.length % U32_MOD, if aad = [] then none else some aad,
   aad.length % U32_MOD, key, nonce⟩

/-- The `DecCall` a validated `chacha20poly1305_aead_decrypt` builds. -/
def decCallOf (message mac ciphertext aad key nonce : List Nat) : DecCall :=
  ⟨ciphertext, message.length % U32_MOD, mac,
   if aad = [] then none else some aad, aad.length % U32_MOD, key, nonce⟩

lemma encCallOf_aadlen (message aad key nonce : List Nat) :
    (encCallOf message aad key nonce).aadlen = aad.length % U32_MOD := rfl

lemma encCallOf_aad (message aad key nonce : List Nat) :
    (encCallOf message aad key nonce).aad
      = if aad = [] then none else some aad := rfl

lemma encCallOf_mlen (message aad key nonce : List Nat) :
    (encCallOf message aad key nonce).mlen
      = message.length % U32_MOD := rfl

lemma encCallOf_m (message aad key nonce : List Nat) :
    (encCallOf message aad key nonce).m = message := rfl

lemma encCallOf_key (message aad key nonce : List Nat) :
    (encCallOf message aad key nonce).key = key := rfl

lemma encCallOf_nonce (message aad key nonce : List Nat) :
    (encCallOf message aad key nonce).nonce = nonce := rfl

lemma decCallOf_aadlen (message mac ciphertext aad key nonce : List Nat) :
    (decCallOf message mac ciphertext aad key nonce).aadlen
      = aad.length % U32_MOD := rfl

lemma decCallOf_aad (message mac ciphertext aad key nonce : List Nat) :
    (decCallOf message mac ciphertext aad key nonce).aad
      = if aad = [] then none else some aad := rfl

lemma decCallOf_mlen (message mac ciphertext aad key nonce : List Nat) :
    (decCallOf message mac ciphertext aad key nonce).mlen
      = message.length % U32_MOD := rfl

lemma enc_ok_eq (eng : EncEngine) (ct mac msg aad key nonce : List Nat)
    (h : encrypt_ok ct mac msg key nonce) :
    chacha20poly1305_aead_encrypt eng ct mac msg aad key nonce =
      ⟨if (eng (encCallOf msg aad key nonce)).2.2 = 0 then Except.ok true
        else Except.ok false,
       (eng (encCallOf msg aad key nonce)).1,
       (eng (encCallOf msg aad key nonce)).2.1,
       [encCallOf msg aad key nonce]⟩ := by
  obtain ⟨h1, h2, h3, h4, h5⟩ := h
  unfold chacha20poly1305_aead_encrypt encCallOf
  simp [h1, h2, h3, h4, h5]

lemma enc_err_eq (eng : EncEngine) (ct mac msg aad key nonce : List Nat)
    (h : ¬ encrypt_ok ct mac msg key nonce) :
    ∃ e, chacha20poly1305_aead_encrypt eng ct mac msg aad key nonce =
      ⟨Except.error e, ct, mac, []⟩ := by
  unfold encrypt_ok at h
  unfold chacha20poly1305_aead_encrypt
  by_cases h1 : mac.length = MAC_LEN <;>
    by_cases h2 : key.length = KEY_LEN <;>
      by_cases h3 : nonce.length = NONCE_LEN <;>
        by_cases h4 : msg = [] <;>
          by_cases h5 : ct.length = msg.length <;>
            simp_all

lemma dec_ok_eq (eng : DecEngine) (msg mac ct aad key nonce : List Nat)
    (h : decrypt_ok msg mac ct key nonce) :
    chacha20poly1305_aead_decrypt eng msg mac ct aad key nonce =
      ⟨if (eng (decCallOf msg mac ct aad key nonce)).2 = 0 then Except.ok true
        else Except.ok false,
       (eng (decCallOf msg mac ct aad key nonce)).1,
       [decCallOf msg mac ct aad key nonce]⟩ := by
  obtain ⟨h1, h2, h3, h4, h5⟩ := h
  unfold chacha20poly1305_aead_decrypt decCallOf
  simp [h1, h2, h3, h4, h5]

lemma dec_err_eq (eng : DecEngine) (msg mac ct aad key nonce : List Nat)
    (h : ¬ decrypt_ok msg mac ct key nonce) :
    ∃ e, chacha20poly1305_aead_decrypt eng msg mac ct aad key nonce =
      ⟨Except.error e, msg, []⟩ := by
  unfold decrypt_ok at h
  unfold chacha20poly1305_aead_decrypt
  by_cases h1 : mac.length = MAC_LEN <;>
    by_cases h2 : key.length = KEY_LEN <;>
      by_cases h3 : nonce.length = NONCE_LEN <;>
        by_cases h4 : msg = [] <;>
          by_cases h5 : ct.length = msg.length <;>
            simp_all

lemma sm_ok_eq (eng : SmEngine) (pk sk bp : List Nat)
    (h : scalarmult_ok pk sk bp) :
    curve25519_crypto_scalarmult eng pk sk bp =
      ⟨Except.ok (), eng ⟨sk, bp⟩, [⟨sk, bp⟩]⟩ := by
  obtain ⟨h1, h2, h3⟩ := h
  unfold curve25519_crypto_scalarmult
  simp [h1, h2, h3]

lemma sm_err_eq (eng : SmEngine) (pk sk bp : List Nat)
    (h : ¬ scalarmult_ok pk sk bp) :
    ∃ e, curve25519_crypto_scalarmult eng pk sk bp =
      ⟨Except.error e, pk, []⟩ := by
  unfold scalarmult_ok at h
  unfold curve25519_crypto_scalarmult
  by_cases h1 : pk.length = KEY_LEN <;>
    by_cases h2 : sk.length = KEY_LEN <;>
      by_cases h3 : bp.length = KEY_LEN <;>
        simp_all

lemma sign_ok_eq (eng : SignEngine) (sig sk msg : List Nat)
    (h : sign_ok sig sk msg) :
    ed25519_sign eng sig sk msg =
      ⟨Except.ok (), eng ⟨sk, msg, msg.length % U32_MOD⟩,
       [⟨sk, msg, msg.length % U32_MOD⟩]⟩ := by
  obtain ⟨h1, h2, h3⟩ := h
  unfold ed25519_sign
  simp [h1, h2, h3]

lemma sign_err_eq (eng : SignEngine) (sig sk msg : List Nat)
    (h : ¬ sign_ok sig sk msg) :
    ∃ e, ed25519_sign eng sig sk msg = ⟨Except.error e, sig, []⟩ := by
  unfold sign_ok at h
  unfold ed25519_sign
  by_cases h1 : sk.length = KEY_LEN <;>
    by_cases h2 : sig.length = SIGN_LEN <;>
      by_cases h3 : msg = [] <;>
        simp_all

lemma hash_ok_eq (eng : HashEngine) (hsh inp : List Nat)
    (h : hash_ok hsh inp) :
    sha2_512_hash eng hsh inp =
      ⟨Except.ok (), eng ⟨inp, inp.length % U32_MOD⟩,
       [⟨inp, inp.length % U32_MOD⟩]⟩ := by
  obtain ⟨h1, h2⟩ := h
  unfold sha2_512_hash
  simp [h1, h2]

lemma hash_err_eq (eng : HashEngine) (hsh inp : List Nat)
    (h : ¬ hash_ok hsh inp) :
    ∃ e, sha2_512_hash eng hsh inp = ⟨Except.error e, hsh, []⟩ := by
  unfold hash_ok at h
  unfold sha2_512_hash
  by_cases h1 : hsh.length = HASH_LEN <;>
    by_cases h2 : inp = [] <;>
      simp_all

/-- C1: for every call to any of the five operations in which a
precondition is violated (a fixed-length buffer of wrong length, an empty
message/plaintext/input, or a ciphertext/plaintext length mismatch), the
operation returns a validation error (`Except.error`), the primitive
engine is never invoked (the call trace is empty), and every caller-owned
output buffer is returned unmodified. -/
theorem C1_validation_rejects_before_engine :
    (∀ (eng : EncEngine) (ct mac msg aad key nonce : List Nat),
      ¬ encrypt_ok ct mac msg key nonce →
      (∃ e, (chacha20poly1305_aead_encrypt eng ct mac msg aad key nonce).ret
          = Except.error e) ∧
      (chacha20poly1305_aead_encrypt eng ct mac msg aad key nonce).calls
          = [] ∧
      (chacha20poly1305_aead_encrypt eng ct mac msg aad key nonce).ciphertext
          = ct ∧
      (chacha20poly1305_aead_encrypt eng ct mac msg aad key nonce).mac
          = mac) ∧
    (∀ (eng : DecEngine) (msg mac ct aad key nonce : List Nat),
      ¬ decrypt_ok msg mac ct key nonce →
      (∃ e, (chacha20poly1305_aead_decrypt eng msg mac ct aad key nonce).ret
          = Except.error e) ∧
      (chacha20poly1305_aead_decrypt eng msg mac ct aad key nonce).calls
          = [] ∧
      (chacha20poly1305_aead_decrypt eng msg mac ct aad key nonce).message
          = msg) ∧
    (∀ (eng : SmEngine) (pk sk bp : List Nat),
      ¬ scalarmult_ok pk sk bp →
      (∃ e, (curve25519_crypto_scalarmult eng pk sk bp).ret
          = Except.error e) ∧
      (curve25519_crypto_scalarmult eng pk sk bp).calls = [] ∧
      (curve25519_crypto_scalarmult eng pk sk bp).public_key = pk) ∧
    (∀ (eng : SignEngine) (sig sk msg : List Nat),
      ¬ sign_ok sig sk msg →
      (∃ e, (ed25519_sign eng sig sk msg).ret = Except.error e) ∧
      (ed25519_sign eng sig sk msg).calls = [] ∧
      (ed25519_sign eng sig sk msg).signature = sig) ∧
    (∀ (eng : HashEngine) (hsh inp : List Nat),
      ¬ hash_ok hsh inp →
      (∃ e, (sha2_512_hash eng hsh inp).ret = Except.error e) ∧
      (sha2_512_hash eng hsh inp).calls = [] ∧
      (sha2_512_hash eng hsh inp).hash = hsh) := by
  refine ⟨?_, ?_, ?_, ?_, ?_⟩
  · intro eng ct mac msg aad key nonce hbad
    obtain ⟨e, he⟩ := enc_err_eq eng ct mac msg aad key nonce hbad
    rw [he]
    exact ⟨⟨e, rfl⟩, rfl, rfl, rfl⟩
  · intro eng msg mac ct aad key nonce hbad
    obtain ⟨e, he⟩ := dec_err_eq eng msg mac ct aad key nonce hbad
    rw [he]
    exact ⟨⟨e, rfl⟩, rfl, rfl⟩
  · intro eng pk sk bp hbad
    obtain ⟨e, he⟩ := sm_err_eq eng pk sk bp hbad
    rw [he]
    exact ⟨⟨e, rfl⟩, rfl, rfl⟩
  · intro eng sig sk msg hbad
    obtain ⟨e, he⟩ := sign_err_eq eng sig sk msg hbad
    rw [he]
    exact ⟨⟨e, rfl⟩, rfl, rfl⟩
  · intro eng hsh inp hbad
    obtain ⟨e, he⟩ := hash_err_eq eng hsh inp hbad
    rw [he]
    exact ⟨⟨e, rfl⟩, rfl, rfl⟩

/-- Witness for C1 at concrete inputs: all-empty buffers violate the
preconditions of every operation, each call returns an error, performs no
engine call, and leaves its output buffers unchanged. -/
theorem C1_validation_rejects_before_engine_witness :
    (∃ e, (chacha20poly1305_aead_encrypt encEngine0 [] [] [] [] [] []).ret
        = Except.error e) ∧
    (chacha20poly1305_aead_encrypt encEngine0 [] [] [] [] [] []).calls
        = [] ∧
    (∃ e, (curve25519_crypto_scalarmult smEngine0 [1] [2] [3]).ret
        = Except.error e) ∧
    (curve25519_crypto_scalarmult smEngine0 [1] [2] [3]).public_key = [1] := by
  have h1 := C1_validation_rejects_before_engine.1 encEngine0 [] [] [] [] [] []
    (by decide)
  have h3 := C1_validation_rejects_before_engine.2.2.1 smEngine0 [1] [2] [3]
    (by decide)
  exact ⟨h1.1, h1.2.1, h3.1, h3.2.2⟩

/-- C2: for every call to `chacha20poly1305_aead_encrypt` or
`chacha20poly1305_aead_decrypt` whose inputs pass validation, the engine
is invoked once, the result is `Ok true` when the engine status is 0 and
`Ok false` for any non-zero status, and the operation never returns an
error after validation succeeds. -/
theorem C2_status_code_mapping :
    (∀ (eng : EncEngine) (ct mac msg aad key nonce : List Nat),
      encrypt_ok ct mac msg key nonce →
      (chacha20poly1305_aead_encrypt eng ct mac msg aad key nonce).calls
          = [encCallOf msg aad key nonce] ∧
      ((eng (encCallOf msg aad key nonce)).2.2 = 0 →
        (chacha20poly1305_aead_encrypt eng ct mac msg aad key nonce).ret
          = Except.ok true) ∧
      ((eng (encCallOf msg aad key nonce)).2.2 ≠ 0 →
        (chacha20poly1305_aead_encrypt eng ct mac msg aad key nonce).ret
          = Except.ok false) ∧
      (∃ b, (chacha20poly1305_aead_encrypt eng ct mac msg aad key nonce).ret
          = Except.ok b)) ∧
    (∀ (eng : DecEngine) (msg mac ct aad key nonce : List Nat),
      decrypt_ok msg mac ct key nonce →
      (chacha20poly1305_aead_decrypt eng msg mac ct aad key nonce).calls
          = [decCallOf msg mac ct aad key nonce] ∧
      ((eng (decCallOf msg mac ct aad key nonce)).2 = 0 →
        (chacha20poly1305_aead_decrypt eng msg mac ct aad key nonce).ret
          = Except.ok true) ∧
      ((eng (decCallOf msg mac ct aad key nonce)).2 ≠ 0 →
        (chacha20poly1305_aead_decrypt eng msg mac ct aad key nonce).ret
          = Except.ok false) ∧
      (∃ b, (chacha20poly1305_aead_decrypt eng msg mac ct aad key nonce).ret
          = Except.ok b)) := by
  constructor
  · intro eng ct mac msg aad key nonce hok
    rw [enc_ok_eq eng ct mac msg aad key nonce hok]
    refine ⟨rfl, ?_, ?_, ?_⟩
    · intro h0; simp [h0]
    · intro h0; simp [h0]
    · by_cases h0 : (eng (encCallOf msg aad key nonce)).2.2 = 0 <;>
        simp [h0]
  · intro eng msg mac ct aad key nonce hok
    rw [dec_ok_eq eng msg mac ct aad key nonce hok]
    refine ⟨rfl, ?_, ?_, ?_⟩
    · intro h0; simp [h0]
    · intro h0; simp [h0]
    · by_cases h0 : (eng (decCallOf msg mac ct aad key nonce)).2 = 0 <;>
        simp [h0]

/-- Witness for C2 at concrete inputs: with `encEngine0`/`decEngine0`
(status 0) a validated encrypt and a validated decrypt each perform one
engine call and return `Ok true`. -/
theorem C2_status_code_mapping_witness :
    (chacha20poly1305_aead_encrypt encEngine0 [0] (List.replicate 16 0) [1]
        [] (List.replicate 32 0) (List.replicate 12 0)).ret
      = Except.ok true ∧
    (chacha20poly1305_aead_decrypt decEngine0 [0] (List.replicate 16 0) [1]
        [] (List.replicate 32 0) (List.replicate 12 0)).ret
      = Except.ok true := by
  have h1 := C2_status_code_mapping.1 encEngine0 [0] (List.replicate 16 0)
    [1] [] (List.replicate 32 0) (List.replicate 12 0) (by decide)
  have h2 := C2_status_code_mapping.2 decEngine0 [0] (List.replicate 16 0)
    [1] [] (List.replicate 32 0) (List.replicate 12 0) (by decide)
  exact ⟨h1.2.1 (by decide), h2.2.1 (by decide)⟩

/-- C8: for every input satisfying the length preconditions,
`curve25519_crypto_scalarmult`, `ed25519_sign` and `sha2_512_hash` return
`Ok ()`: they have no engine-level failure path after validation. -/
theorem C8_no_engine_failure_path :
    (∀ (eng : SmEngine) (pk sk bp : List Nat),
      scalarmult_ok pk sk bp →
      (curve25519_crypto_scalarmult eng pk sk bp).ret = Except.ok ()) ∧
    (∀ (eng : SignEngine) (sig sk msg : List Nat),
      sign_ok sig sk msg →
      (ed25519_sign eng sig sk msg).ret = Except.ok ()) ∧
    (∀ (eng : HashEngine) (hsh inp : List Nat),
      hash_ok hsh inp →
      (sha2_512_hash eng hsh inp).ret = Except.ok ()) := by
  refine ⟨?_, ?_, ?_⟩
  · intro eng pk sk bp hok
    rw [sm_ok_eq eng pk sk bp hok]
  · intro eng sig sk msg hok
    rw [sign_ok_eq eng sig sk msg hok]
  · intro eng hsh inp hok
    rw [hash_ok_eq eng hsh inp hok]

/-- Witness for C8 at concrete inputs: exact-length buffers make all
three operations return `Ok ()`. -/
theorem C8_no_engine_failure_path_witness :
    (curve25519_crypto_scalarmult smEngine0 (List.replicate 32 0)
        (List.replicate 32 1) (List.replicate 32 2)).ret = Except.ok () ∧
    (ed25519_sign signEngine0 (List.replicate 64 0) (List.replicate 32 1)
        [5]).ret = Except.ok () ∧
    (sha2_512_hash hashEngine0 (List.replicate 64 0) [5]).ret
      = Except.ok () := by
  exact ⟨C8_no_engine_failure_path.1 smEngine0 _ _ _ (by decide),
    C8_no_engine_failure_path.2.1 signEngine0 _ _ _ (by decide),
    C8_no_engine_failure_path.2.2 hashEngine0 _ _ (by decide)⟩

/-- C3 counterexample: the claim "if the aad slice is non-empty, the
engine receives the aad buffer pointer together with its actual length"
fails for an AAD of 2^32 bytes: the AAD is non-empty and has length
`U32_MOD`, yet the engine receives `aadlen = 0` (the `as u32` cast of the
length), not the actual length. -/
theorem C3_counterexample :
    List.replicate U32_MOD 7 ≠ ([] : List Nat) ∧
    (List.replicate U32_MOD 7).length = U32_MOD ∧
    (chacha20poly1305_aead_encrypt encEngine0 [0] (List.replicate 16 0) [1]
        (List.replicate U32_MOD 7) (List.replicate 32 0)
        (List.replicate 12 0)).calls.map EncCall.aadlen = [0] ∧
    (0 : Nat) ≠ U32_MOD := by
  have hne : List.replicate U32_MOD 7 ≠ ([] : List Nat) := by
    intro h
    have h2 := congrArg List.length h
    rw [List.length_replicate] at h2
    norm_num [U32_MOD] at h2
  refine ⟨hne, List.length_replicate _ _, ?_, by norm_num [U32_MOD]⟩
  rw [enc_ok_eq encEngine0 [0] (List.replicate 16 0) [1]
    (List.replicate U32_MOD 7) (List.replicate 32 0) (List.replicate 12 0)
    ⟨by simp [MAC_LEN], by simp [KEY_LEN], by simp [NONCE_LEN],
      by simp, rfl⟩]
  rw [List.map_cons, List.map_nil, encCallOf_aadlen, List.length_replicate,
    Nat.mod_self]

/-- C3 amended: for every validated call to encrypt or decrypt, if the
aad slice is empty the engine receives a null pointer (`none`) and aad
length 0; if it is non-empty the engine receives the aad buffer pointer
(`some aad`) together with its length reduced `as u32`, i.e.
`aad.length % 2^32` (the actual length whenever the aad is shorter than
2^32 bytes). -/
theorem C3_amended_aad_marshalling :
    (∀ (eng : EncEngine) (ct mac msg aad key nonce : List Nat),
      encrypt_ok ct mac msg key nonce →
      (aad = [] →
        (chacha20poly1305_aead_encrypt eng ct mac msg aad key nonce).calls.map
            EncCall.aad = [none] ∧
        (chacha20poly1305_aead_encrypt eng ct mac msg aad key nonce).calls.map
            EncCall.aadlen = [0]) ∧
      (aad ≠ [] →
        (chacha20poly1305_aead_encrypt eng ct mac msg aad key nonce).calls.map
            EncCall.aad = [some aad] ∧
        (chacha20poly1305_aead_encrypt eng ct mac msg aad key nonce).calls.map
            EncCall.aadlen = [aad.length % U32_MOD])) ∧
    (∀ (eng : DecEngine) (msg mac ct aad key nonce : List Nat),
      decrypt_ok msg mac ct key nonce →
      (aad = [] →
        (chacha20poly1305_aead_decrypt eng msg mac ct aad key nonce).calls.map
            DecCall.aad = [none] ∧
        (chacha20poly1305_aead_decrypt eng msg mac ct aad key nonce).calls.map
            DecCall.aadlen = [0]) ∧
      (aad ≠ [] →
        (chacha20poly1305_aead_decrypt eng msg mac ct aad key nonce).calls.map
            DecCall.aad = [some aad] ∧
        (chacha20poly1305_aead_decrypt eng msg mac ct aad key nonce).calls.map
            DecCall.aadlen = [aad.length % U32_MOD])) := by
  constructor
  · intro eng ct mac msg aad key nonce hok
    rw [enc_ok_eq eng ct mac msg aad key nonce hok]
    constructor
    · intro hemp
      subst hemp
      rw [List.map_cons, List.map_nil, encCallOf_aad,
        List.map_cons, List.map_nil, encCallOf_aadlen]
      simp
    · intro hne
      rw [List.map_cons, List.map_nil, encCallOf_aad,
        List.map_cons, List.map_nil, encCallOf_aadlen, if_neg hne]
      exact ⟨rfl, rfl⟩
  · intro eng msg mac ct aad key nonce hok
    rw [dec_ok_eq eng msg mac ct aad key nonce hok]
    constructor
    · intro hemp
      subst hemp
      rw [List.map_cons, List.map_nil, decCallOf_aad,
        List.map_cons, List.map_nil, decCallOf_aadlen]
      simp
    · intro hne
      rw [List.map_cons, List.map_nil, decCallOf_aad,
        List.map_cons, List.map_nil, decCallOf_aadlen, if_neg hne]
      exact ⟨rfl, rfl⟩

/-- Witness for the amended C3 at concrete inputs: an empty aad reaches
the engine as a null pointer with length 0, a one-byte aad reaches it as
a valid pointer with length 1. -/
theorem C3_amended_aad_marshalling_witness :
    (chacha20poly1305_aead_encrypt encEngine0 [0] (List.replicate 16 0) [1]
        [] (List.replicate 32 0) (List.replicate 12 0)).calls.map
        EncCall.aad = [none] ∧
    (chacha20poly1305_aead_encrypt encEngine0 [0] (List.replicate 16 0) [1]
        [9] (List.replicate 32 0) (List.replicate 12 0)).calls.map
        EncCall.aadlen = [1] ∧
    (chacha20poly1305_aead_decrypt decEngine0 [0] (List.replicate 16 0) [1]
        [] (List.replicate 32 0) (List.replicate 12 0)).calls.map
        DecCall.aad = [none] := by
  have h1 := (C3_amended_aad_marshalling.1 encEngine0 [0]
    (List.replicate 16 0) [1] [] (List.replicate 32 0)
    (List.replicate 12 0) (by decide)).1 rfl
  have h2 := (C3_amended_aad_marshalling.1 encEngine0 [0]
    (List.replicate 16 0) [1] [9] (List.replicate 32 0)
    (List.replicate 12 0) (by decide)).2 (by decide)
  have h3 := (C3_amended_aad_marshalling.2 decEngine0 [0]
    (List.replicate 16 0) [1] [] (List.replicate 32 0)
    (List.replicate 12 0) (by decide)).1 rfl
  exact ⟨h1.1, by rw [h2.2]; decide, h3.1⟩

/-- C9: message, input and aad lengths are converted to the engine's
32-bit width with an unchecked cast, so the length the engine receives is
always the true length modulo 2^32; the validation predicates impose no
upper bound on these lengths, so no validation error is raised for
oversized inputs (every validated call reaches the engine and returns
`Ok`). -/
theorem C9_u32_truncation :
    (∀ (eng : EncEngine) (ct mac msg aad key nonce : List Nat),
      encrypt_ok ct mac msg key nonce →
      (chacha20poly1305_aead_encrypt eng ct mac msg aad key nonce).calls.map
          EncCall.mlen = [msg.length % U32_MOD] ∧
      (chacha20poly1305_aead_encrypt eng ct mac msg aad key nonce).calls.map
          EncCall.aadlen = [aad.length % U32_MOD] ∧
      (∃ b, (chacha20poly1305_aead_encrypt eng ct mac msg aad key nonce).ret
          = Except.ok b)) ∧
    (∀ (eng : DecEngine) (msg mac ct aad key nonce : List Nat),
      decrypt_ok msg mac ct key nonce →
      (chacha20poly1305_aead_decrypt eng msg mac ct aad key nonce).calls.map
          DecCall.mlen = [msg.length % U32_MOD] ∧
      (chacha20poly1305_aead_decrypt eng msg mac ct aad key nonce).calls.map
          DecCall.aadlen = [aad.length % U32_MOD] ∧
      (∃ b, (chacha20poly1305_aead_decrypt eng msg mac ct aad key nonce).ret
          = Except.ok b)) ∧
    (∀ (eng : SignEngine) (sig sk msg : List Nat),
      sign_ok sig sk msg →
      (ed25519_sign eng sig sk msg).calls.map SignCall.len
          = [msg.length % U32_MOD] ∧
      (ed25519_sign eng sig sk msg).ret = Except.ok ()) ∧
    (∀ (eng : HashEngine) (hsh inp : List Nat),
      hash_ok hsh inp →
      (sha2_512_hash eng hsh inp).calls.map HashCall.input_len
          = [inp.length % U32_MOD] ∧
      (sha2_512_hash eng hsh inp).ret = Except.ok ()) := by
  refine ⟨?_, ?_, ?_, ?_⟩
  · intro eng ct mac msg aad key nonce hok
    rw [enc_ok_eq eng ct mac msg aad key nonce hok]
    refine ⟨?_, ?_, ?_⟩
    · rw [List.map_cons, List.map_nil, encCallOf_mlen]
    · rw [List.map_cons, List.map_nil, encCallOf_aadlen]
    · by_cases h0 : (eng (encCallOf msg aad key nonce)).2.2 = 0 <;>
        simp [h0]
  · intro eng msg mac ct aad key nonce hok
    rw [dec_ok_eq eng msg mac ct aad key nonce hok]
    refine ⟨?_, ?_, ?_⟩
    · rw [List.map_cons, List.map_nil, decCallOf_mlen]
    · rw [List.map_cons, List.map_nil, decCallOf_aadlen]
    · by_cases h0 : (eng (decCallOf msg mac ct aad key nonce)).2 = 0 <;>
        simp [h0]
  · intro eng sig sk msg hok
    rw [sign_ok_eq eng sig sk msg hok]
    exact ⟨rfl, rfl⟩
  · intro eng hsh inp hok
    rw [hash_ok_eq eng hsh inp hok]
    exact ⟨rfl, rfl⟩

/-- Witness for C9 at concrete inputs: a validated hash call passes
`input.length % 2^32` to the engine and returns `Ok`. -/
theorem C9_u32_truncation_witness :
    (sha2_512_hash hashEngine0 (List.replicate 64 0) [5, 6]).calls.map
        HashCall.input_len = [2] ∧
    (sha2_512_hash hashEngine0 (List.replicate 64 0) [5, 6]).ret
        = Except.ok () := by
  have h := C9_u32_truncation.2.2.2 hashEngine0 (List.replicate 64 0)
    [5, 6] (by decide)
  exact ⟨by rw [h.1]; decide, h.2⟩

/-- C10: the validation checks of encrypt and decrypt run in a fixed
order (mac length, then key length, then nonce length, then message
non-emptiness, then ciphertext/message length equality), so when several
preconditions are violated the error returned is the one for the first
failing check in that order. -/
theorem C10_validation_order :
    (∀ (eng : EncEngine) (ct mac msg aad key nonce : List Nat),
      (mac.length ≠ MAC_LEN →
        (chacha20poly1305_aead_encrypt eng ct mac msg aad key nonce).ret
          = Except.error "Mac length error") ∧
      (mac.length = MAC_LEN → key.length ≠ KEY_LEN →
        (chacha20poly1305_aead_encrypt eng ct mac msg aad key nonce).ret
          = Except.error "Key length error") ∧
      (mac.length = MAC_LEN → key.length = KEY_LEN →
          nonce.length ≠ NONCE_LEN →
        (chacha20poly1305_aead_encrypt eng ct mac msg aad key nonce).ret
          = Except.error "Nonce length error") ∧
      (mac.length = MAC_LEN → key.length = KEY_LEN →
          nonce.length = NONCE_LEN → msg = [] →
        (chacha20poly1305_aead_encrypt eng ct mac msg aad key nonce).ret
          = Except.error "Can\x27t use an empty message") ∧
      (mac.length = MAC_LEN → key.length = KEY_LEN →
          nonce.length = NONCE_LEN → msg ≠ [] →
          ct.length ≠ msg.length →
        (chacha20poly1305_aead_encrypt eng ct mac msg aad key nonce).ret
          = Except.error "Message and ciphertext have different lengths")) ∧
    (∀ (eng : DecEngine) (msg mac ct aad key nonce : List Nat),
      (mac.length ≠ MAC_LEN →
        (chacha20poly1305_aead_decrypt eng msg mac ct aad key nonce).ret
          = Except.error "Mac length error") ∧
      (mac.length = MAC_LEN → key.length ≠ KEY_LEN →
        (chacha20poly1305_aead_decrypt eng msg mac ct aad key nonce).ret
          = Except.error "Key length error") ∧
      (mac.length = MAC_LEN → key.length = KEY_LEN →
          nonce.length ≠ NONCE_LEN →
        (chacha20poly1305_aead_decrypt eng msg mac ct aad key nonce).ret
          = Except.error "Nonce length error") ∧
      (mac.length = MAC_LEN → key.length = KEY_LEN →
          nonce.length = NONCE_LEN → msg = [] →
        (chacha20poly1305_aead_decrypt eng msg mac ct aad key nonce).ret
          = Except.error "Can\x27t use an empty message") ∧
      (mac.length = MAC_LEN → key.length = KEY_LEN →
          nonce.length = NONCE_LEN → msg ≠ [] →
          ct.length ≠ msg.length →
        (chacha20poly1305_aead_decrypt eng msg mac ct aad key nonce).ret
          = Except.error "Message and ciphertext have different lengths")) := by
  constructor
  · intro eng ct mac msg aad key nonce
    refine ⟨?_, ?_, ?_, ?_, ?_⟩
    · intro h1
      unfold chacha20poly1305_aead_encrypt
      rw [if_pos h1]
    · intro h1 h2
      unfold chacha20poly1305_aead_encrypt
      rw [if_neg (by simp [h1]), if_pos h2]
    · intro h1 h2 h3
      unfold chacha20poly1305_aead_encrypt
      rw [if_neg (by simp [h1]), if_neg (by simp [h2]), if_pos h3]
    · intro h1 h2 h3 h4
      unfold chacha20poly1305_aead_encrypt
      rw [if_neg (by simp [h1]), if_neg (by simp [h2]),
        if_neg (by simp [h3]), if_pos h4]
    · intro h1 h2 h3 h4 h5
      unfold chacha20poly1305_aead_encrypt
      rw [if_neg (by simp [h1]), if_neg (by simp [h2]),
        if_neg (by simp [h3]), if_neg h4, if_pos h5]
  · intro eng msg mac ct aad key nonce
    refine ⟨?_, ?_, ?_, ?_, ?_⟩
    · intro h1
      unfold chacha20poly1305_aead_decrypt
      rw [if_pos h1]
    · intro h1 h2
      unfold chacha20poly1305_aead_decrypt
      rw [if_neg (by simp [h1]), if_pos h2]
    · intro h1 h2 h3
      unfold chacha20poly1305_aead_decrypt
      rw [if_neg (by simp [h1]), if_neg (by simp [h2]), if_pos h3]
    · intro h1 h2 h3 h4
      unfold chacha20poly1305_aead_decrypt
      rw [if_neg (by simp [h1]), if_neg (by simp [h2]),
        if_neg (by simp [h3]), if_pos h4]
    · intro h1 h2 h3 h4 h5
      unfold chacha20poly1305_aead_decrypt
      rw [if_neg (by simp [h1]), if_neg (by simp [h2]),
        if_neg (by simp [h3]), if_neg h4, if_pos h5]

/-- Witness for C10 at concrete inputs: with every buffer empty (all five
checks violated) both operations report the mac length error, the first
check in the order; with only the mac correct they report the key length
error. -/
theorem C10_validation_order_witness :
    (chacha20poly1305_aead_encrypt encEngine0 [] [] [] [] [] []).ret
        = Except.error "Mac length error" ∧
    (chacha20poly1305_aead_decrypt decEngine0 [] [] [] [] [] []).ret
        = Except.error "Mac length error" ∧
    (chacha20poly1305_aead_encrypt encEngine0 [] (List.replicate 16 0) []
        [] [] []).ret = Except.error "Key length error" := by
  refine ⟨(C10_validation_order.1 encEngine0 [] [] [] [] [] []).1
      (by decide),
    (C10_validation_order.2 decEngine0 [] [] [] [] [] []).1 (by decide),
    (C10_validation_order.1 encEngine0 [] (List.replicate 16 0) [] [] []
      []).2.1 (by decide) (by decide)⟩

/-- C4: the claim says the key-exchange workflow computes
`z = ScalarMult(secretB, publicA)` (and the source's own comment at step 3
says `z = scalar_multiplication(Qbe, Pae)`), but the code passes party B's
own public key: the single scalar-multiplication call of `test_gec`
receives basepoint `p_be`, not `p_ae`, and the two differ. -/
theorem C4_gec_shared_secret_uses_own_public (sm : SmEngine)
    (hE : HashEngine) (sg : SignEngine) :
    (test_gec sm hE sg).smCalls = [⟨q_be, p_be⟩] ∧ p_be ≠ p_ae := by
  constructor
  · show (curve25519_crypto_scalarmult sm (List.replicate 32 0)
      q_be p_be).calls = [⟨q_be, p_be⟩]
    rw [sm_ok_eq sm (List.replicate 32 0) q_be p_be
      ⟨by decide, by decide, by decide⟩]
  · decide

/-- C5: calling `ed25519_sign` with a secret key of wrong length (31
bytes here) returns the error string naming the public-key field, even
though the failing check is on the secret key and the function has no
public-key parameter: the error does not identify the field that was
wrong. The engine is still never invoked. -/
theorem C5_sign_secret_key_error_names_public_key :
    (ed25519_sign signEngine0 (List.replicate 64 0) (List.replicate 31 0)
        [1]).ret = Except.error "Public key length error" ∧
    (ed25519_sign signEngine0 (List.replicate 64 0) (List.replicate 31 0)
        [1]).calls = [] := by
  constructor <;> rfl

/-- The AEAD round-trip contract of the external primitive engine
(spec §6: the primitive pair is an authenticated encryption scheme):
encryption writes a ciphertext of the plaintext's length and a 16-byte
mac, and decrypting that ciphertext and mac with the same `mlen`, aad
pointer, aad length, key and nonce recovers the plaintext with status 0. -/
def aead_roundtrip_contract (enc : EncEngine) (dec : DecEngine) : Prop :=
  ∀ ec : EncCall,
    ((enc ec).1).length = ec.m.length ∧
    ((enc ec).2.1).length = MAC_LEN ∧
    dec ⟨(enc ec).1, ec.mlen, (enc ec).2.1, ec.aad, ec.aadlen, ec.key,
      ec.nonce⟩ = (ec.m, 0)

/-- C6: for every well-formed (32-byte key, 12-byte nonce, non-empty
plaintext, aad) tuple and correctly sized caller buffers, decrypting the
ciphertext and tag produced by `chacha20poly1305_aead_encrypt` with the
same key, nonce and aad via `chacha20poly1305_aead_decrypt` recovers the
original plaintext and returns `Ok true`, for any engine pair satisfying
the AEAD round-trip contract of spec §6. -/
theorem C6_encrypt_decrypt_roundtrip (enc : EncEngine) (dec : DecEngine)
    (hcontract : aead_roundtrip_contract enc dec)
    (ct0 mac0 out message aad key nonce : List Nat)
    (hmac : mac0.length = MAC_LEN) (hkey : key.length = KEY_LEN)
    (hnonce : nonce.length = NONCE_LEN) (hmsg : message ≠ [])
    (hct : ct0.length = message.length)
    (hout : out.length = message.length) :
    (chacha20poly1305_aead_decrypt dec out
        (chacha20poly1305_aead_encrypt enc ct0 mac0 message aad key
          nonce).mac
        (chacha20poly1305_aead_encrypt enc ct0 mac0 message aad key
          nonce).ciphertext
        aad key nonce).ret = Except.ok true ∧
    (chacha20poly1305_aead_decrypt dec out
        (chacha20poly1305_aead_encrypt enc ct0 mac0 message aad key
          nonce).mac
        (chacha20poly1305_aead_encrypt enc ct0 mac0 message aad key
          nonce).ciphertext
        aad key nonce).message = message := by
  obtain ⟨hclen, hmaclen, hdec⟩ := hcontract (encCallOf message aad key nonce)
  rw [encCallOf_m] at hclen
  rw [encCallOf_m, encCallOf_key, encCallOf_nonce] at hdec
  rw [enc_ok_eq enc ct0 mac0 message aad key nonce
    ⟨hmac, hkey, hnonce, hmsg, hct⟩]
  have hok2 : decrypt_ok out
      (enc (encCallOf message aad key nonce)).2.1
      (enc (encCallOf message aad key nonce)).1 key nonce := by
    refine ⟨hmaclen, hkey, hnonce, ?_, ?_⟩
    · intro h0
      rw [h0] at hout
      exact hmsg (List.eq_nil_of_length_eq_zero hout.symm)
    · rw [hclen, hout]
  rw [dec_ok_eq dec out (enc (encCallOf message aad key nonce)).2.1
    (enc (encCallOf message aad key nonce)).1 aad key nonce hok2]
  have hcall : decCallOf out (enc (encCallOf message aad key nonce)).2.1
      (enc (encCallOf message aad key nonce)).1 aad key nonce =
      ⟨(enc (encCallOf message aad key nonce)).1,
       (encCallOf message aad key nonce).mlen,
       (enc (encCallOf message aad key nonce)).2.1,
       (encCallOf message aad key nonce).aad,
       (encCallOf message aad key nonce).aadlen, key, nonce⟩ := by
    rw [decCallOf]
    rw [encCallOf_mlen, encCallOf_aad, encCallOf_aadlen, hout]
  rw [hcall, hdec]
  exact ⟨rfl, rfl⟩

/-- Witness for C6 at concrete inputs, with the identity engine pair
(`encEngine0`, `decEngine0`), which satisfies the round-trip contract. -/
theorem C6_encrypt_decrypt_roundtrip_witness :
    (chacha20poly1305_aead_decrypt decEngine0 [0]
        (chacha20poly1305_aead_encrypt encEngine0 [0] (List.replicate 16 0)
          [5] [] (List.replicate 32 1) (List.replicate 12 2)).mac
        (chacha20poly1305_aead_encrypt encEngine0 [0] (List.replicate 16 0)
          [5] [] (List.replicate 32 1) (List.replicate 12 2)).ciphertext
        [] (List.replicate 32 1) (List.replicate 12 2)).ret
      = Except.ok true ∧
    (chacha20poly1305_aead_decrypt decEngine0 [0]
        (chacha20poly1305_aead_encrypt encEngine0 [0] (List.replicate 16 0)
          [5] [] (List.replicate 32 1) (List.replicate 12 2)).mac
        (chacha20poly1305_aead_encrypt encEngine0 [0] (List.replicate 16 0)
          [5] [] (List.replicate 32 1) (List.replicate 12 2)).ciphertext
        [] (List.replicate 32 1) (List.replicate 12 2)).message = [5] :=
  C6_encrypt_decrypt_roundtrip encEngine0 decEngine0
    (fun ec => ⟨rfl, List.length_replicate 16 0, rfl⟩)
    [0] (List.replicate 16 0) [0] [5] [] (List.replicate 32 1)
    (List.replicate 12 2) (by decide) (by decide) (by decide) (by decide)
    (by decide) (by decide)

/-- C7: the key-exchange workflow derives exactly three 64-byte
key-material blocks, each computed by hashing the 32-byte shared secret
`z` with a single identity byte appended (`z ++ [tag]`, 33 bytes in
total, for tags 0, 1, 2), and each block splits into a 32-byte first half
and a 32-byte second half.  The engine hypotheses are the spec §6
contract: scalar multiplication writes 32 bytes, hashing writes 64. -/
theorem C7_gec_kdf_three_blocks (sm : SmEngine) (hE : HashEngine)
    (sg : SignEngine) (hsm : ∀ c, (sm c).length = 32)
    (hh : ∀ c, (hE c).length = 64) :
    (test_gec sm hE sg).z.length = 32 ∧
    (test_gec sm hE sg).hashCalls =
      [⟨(test_gec sm hE sg).z ++ [0], 33⟩,
       ⟨(test_gec sm hE sg).z ++ [1], 33⟩,
       ⟨(test_gec sm hE sg).z ++ [2], 33⟩] ∧
    (test_gec sm hE sg).ka_sa = hE ⟨(test_gec sm hE sg).z ++ [0], 33⟩ ∧
    (test_gec sm hE sg).kb_sb = hE ⟨(test_gec sm hE sg).z ++ [1], 33⟩ ∧
    (test_gec sm hE sg).kc_sc = hE ⟨(test_gec sm hE sg).z ++ [2], 33⟩ ∧
    (test_gec sm hE sg).ka_sa.length = 64 ∧
    (test_gec sm hE sg).kb_sb.length = 64 ∧
    (test_gec sm hE sg).kc_sc.length = 64 ∧
    ((test_gec sm hE sg).ka_sa.take 32).length = 32 ∧
    ((test_gec sm hE sg).ka_sa.drop 32).length = 32 ∧
    ((test_gec sm hE sg).kb_sb.take 32).length = 32 ∧
    ((test_gec sm hE sg).kb_sb.drop 32).length = 32 ∧
    ((test_gec sm hE sg).kc_sc.take 32).length = 32 ∧
    ((test_gec sm hE sg).kc_sc.drop 32).length = 32 := by
  have hz : (test_gec sm hE sg).z = sm ⟨q_be, p_be⟩ := by
    show (curve25519_crypto_scalarmult sm (List.replicate 32 0)
      q_be p_be).public_key = sm ⟨q_be, p_be⟩
    rw [sm_ok_eq sm (List.replicate 32 0) q_be p_be
      ⟨by decide, by decide, by decide⟩]
  have hzlen : (test_gec sm hE sg).z.length = 32 := by
    rw [hz]; exact hsm ⟨q_be, p_be⟩
  have hlen : ∀ b : Nat, ((test_gec sm hE sg).z ++ [b]).length % U32_MOD
      = 33 := by
    intro b
    rw [List.length_append, hzlen]
    norm_num [U32_MOD]
  have hne : ∀ b : Nat, (test_gec sm hE sg).z ++ [b] ≠ [] := by
    intro b h
    have h2 := congrArg List.length h
    rw [List.length_append, hzlen] at h2
    norm_num at h2
  have hhok : ∀ b : Nat,
      hash_ok (List.replicate 64 0) ((test_gec sm hE sg).z ++ [b]) :=
    fun b => ⟨by decide, hne b⟩
  have hblock : ∀ b : Nat,
      sha2_512_hash hE (List.replicate 64 0)
          ((test_gec sm hE sg).z ++ [b]) =
        ⟨Except.ok (),
         hE ⟨(test_gec sm hE sg).z ++ [b], 33⟩,
         [⟨(test_gec sm hE sg).z ++ [b], 33⟩]⟩ := by
    intro b
    rw [hash_ok_eq hE (List.replicate 64 0)
      ((test_gec sm hE sg).z ++ [b]) (hhok b), hlen b]
  have hka : (test_gec sm hE sg).ka_sa
      = hE ⟨(test_gec sm hE sg).z ++ [0], 33⟩ := by
    show (sha2_512_hash hE (List.replicate 64 0)
      ((test_gec sm hE sg).z ++ [0])).hash
      = hE ⟨(test_gec sm hE sg).z ++ [0], 33⟩
    rw [hblock 0]
  have hkb : (test_gec sm hE sg).kb_sb
      = hE ⟨(test_gec sm hE sg).z ++ [1], 33⟩ := by
    show (sha2_512_hash hE (List.replicate 64 0)
      ((test_gec sm hE sg).z ++ [1])).hash
      = hE ⟨(test_gec sm hE sg).z ++ [1], 33⟩
    rw [hblock 1]
  have hkc : (test_gec sm hE sg).kc_sc
      = hE ⟨(test_gec sm hE sg).z ++ [2], 33⟩ := by
    show (sha2_512_hash hE (List.replicate 64 0)
      ((test_gec sm hE sg).z ++ [2])).hash
      = hE ⟨(test_gec sm hE sg).z ++ [2], 33⟩
    rw [hblock 2]
  have hcalls : (test_gec sm hE sg).hashCalls =
      [⟨(test_gec sm hE sg).z ++ [0], 33⟩,
       ⟨(test_gec sm hE sg).z ++ [1], 33⟩,
       ⟨(test_gec sm hE sg).z ++ [2], 33⟩] := by
    show (sha2_512_hash hE (List.replicate 64 0)
        ((test_gec sm hE sg).z ++ [0])).calls ++
      (sha2_512_hash hE (List.replicate 64 0)
        ((test_gec sm hE sg).z ++ [1])).calls ++
      (sha2_512_hash hE (List.replicate 64 0)
        ((test_gec sm hE sg).z ++ [2])).calls = _
    rw [hblock 0, hblock 1, hblock 2]
    rfl
  have hkalen : (test_gec sm hE sg).ka_sa.length = 64 := by
    rw [hka]; exact hh _
  have hkblen : (test_gec sm hE sg).kb_sb.length = 64 := by
    rw [hkb]; exact hh _
  have hkclen : (test_gec sm hE sg).kc_sc.length = 64 := by
    rw [hkc]; exact hh _
  refine ⟨hzlen, hcalls, hka, hkb, hkc, hkalen, hkblen, hkclen,
    ?_, ?_, ?_, ?_, ?_, ?_⟩ <;>
    simp [List.length_take, List.length_drop, hkalen, hkblen, hkclen]

/-- Witness for C7 with the concrete engines `smEngine0` (writes 32
bytes), `hashEngine0` (writes 64 bytes) and `signEngine0`. -/
theorem C7_gec_kdf_three_blocks_witness :
    (test_gec smEngine0 hashEngine0 signEngine0).z.length = 32 ∧
    (test_gec smEngine0 hashEngine0 signEngine0).hashCalls =
      [⟨(test_gec smEngine0 hashEngine0 signEngine0).z ++ [0], 33⟩,
       ⟨(test_gec smEngine0 hashEngine0 signEngine0).z ++ [1], 33⟩,
       ⟨(test_gec smEngine0 hashEngine0 signEngine0).z ++ [2], 33⟩] ∧
    (test_gec smEngine0 hashEngine0 signEngine0).ka_sa.length = 64 := by
  have h := C7_gec_kdf_three_blocks smEngine0 hashEngine0 signEngine0
    (fun c => List.length_replicate 32 1)
    (fun c => List.length_replicate 64 2)
  exact ⟨h.1, h.2.1, h.2.2.2.2.2.1⟩
